import Mathlib

/-!
# Verification of the credential/password-reset subsystem

Shallow embedding of the credential-and-session-security core of the
SE3ClassroomBorrowingBackend repository:

* `src/argonhasher.rs` — the Argon2 credential hasher wrapper
  (`set_config`, `hash`, `verify`);
* `src/routes/password.rs` — the three password-reset route handlers
  (`forgot_password`, `verify_code`, `reset_password`);
* `src/login_system.rs` — the authentication backend's `get_user`
  cache-aside lookup;
* `src/constants.rs` — TTL constants.

Redis is modelled as an association list of keyed entries with absolute
expiry; every Redis/database/email call is driven by an explicit failure
oracle, mirroring the `Result` type of each call in the source.  Serialized
payloads (`serde_json`) are modelled by a typed `StoredVal` sum whose `raw`
constructor stands for any payload that fails to deserialize to the expected
shape.  Panics (`unwrap`/`expect` in the source) are modelled by the
`Outcome.panicked` constructor.
-/

/-- Rust `panic!`-or-value outcome: `.panicked` models an `unwrap`/`expect`
failure aborting the call. -/
inductive Outcome (α : Type) where
  | ok (a : α)
  | panicked
deriving DecidableEq, Repr

/-- Subset of `argon2::password_hash::Error` used by the wrapper:
`password` is `Error::Password` (verification mismatch); `other` stands for
any other library error. -/
inductive PHError where
  | password
  | other
deriving DecidableEq, Repr

/-- `argon_hasher::Config` from `src/argonhasher.rs` (bytes as `List Nat`). -/
structure HasherConfig where
  secret_key : List Nat
  iterations : Nat
  parallelism : Nat
  memory_cost : Nat
deriving DecidableEq, Repr

/-- Content of a parsed PHC hash string (`argon2::PasswordHash`): the string
is self-describing, carrying the cost parameters, the salt and the digest. -/
structure ParsedHash where
  memoryCost : Nat
  iterations : Nat
  parallelism : Nat
  salt : Nat
  digest : List Nat
deriving DecidableEq, Repr

/-- A value of Rust type `String` holding a password hash: either a
well-formed PHC string (in which case it determines a `ParsedHash`) or any
other, malformed string. -/
inductive HashStr where
  | phc (ph : ParsedHash)
  | malformed (s : String)
deriving DecidableEq, Repr

/-- Modelled from the spec: `argon2::PasswordHash::new` parses a
self-describing hash string, failing exactly on malformed input (the crate
itself is outside this repository). -/
def parseHash : HashStr → Option ParsedHash
  | .phc ph => some ph
  | .malformed _ => none

/-- Modelled from the spec: the external Argon2id primitive derives a digest
from the server-side secret pepper, the salt and the password; the model
keeps the digest abstract as an injective combination of the three (the
crate is outside this repository). -/
def argonDigest (secret : List Nat) (salt : Nat) (password : List Nat) : List Nat :=
  secret ++ salt :: password

/-- Modelled from the spec: `argon2::Params::new` rejects invalid cost
parameters (e.g. zero cost) — the crate is outside this repository. -/
def paramsValid (c : HasherConfig) : Bool :=
  0 < c.iterations && 0 < c.parallelism && 0 < c.memory_cost

/-- `argon2.hash_password(password, salt).map(|ph| ph.to_string())` from
`src/argonhasher.rs:48`: derive with the configured parameters and pepper
and render the self-describing PHC string. -/
def hash_password (cfg : HasherConfig) (salt : Nat) (password : List Nat) : HashStr :=
  .phc ⟨cfg.memory_cost, cfg.iterations, cfg.parallelism, salt,
        argonDigest cfg.secret_key salt password⟩

/-- `argon2.verify_password(password, hash)` (`src/argonhasher.rs:69`):
re-derive with the salt embedded in the parsed hash and the instance's
pepper; `Ok(())` on match, `Err(Error::Password)` on mismatch. -/
def verify_password (cfg : HasherConfig) (password : List Nat) (ph : ParsedHash) :
    Except PHError Unit :=
  if ph.digest = argonDigest cfg.secret_key ph.salt password then .ok ()
  else .error .password

/-- `set_config` from `src/argonhasher.rs:18`: builds the Argon2 instance
(`Params::new(..).unwrap()` panics on invalid parameters), then
`let _ = GLOBAL_ARGON2.set(..)` — the `OnceLock::set` result is discarded,
so when the global is already initialized the call silently keeps the old
configuration.  The state argument is the content of `GLOBAL_ARGON2`. -/
def set_config (st : Option HasherConfig) (c : HasherConfig) :
    Outcome (Option HasherConfig) :=
  if paramsValid c then
    match st with
    | none => .ok (some c)
    | some old => .ok (some old)
  else .panicked

/-- `argon_hasher::hash` (`src/argonhasher.rs:38`): `expect` panics when the
global is uninitialized; otherwise a fresh salt (passed here as the `salt`
argument, drawn by `SaltString::generate(&mut OsRng)` in the source) is used
to derive the PHC string on a blocking worker. -/
def argonHash (st : Option HasherConfig) (salt : Nat) (password : List Nat) :
    Outcome (Except PHError HashStr) :=
  match st with
  | none => .panicked
  | some cfg => .ok (.ok (hash_password cfg salt password))

/-- `argon_hasher::verify` (`src/argonhasher.rs:56`): `expect` panics when
uninitialized; `PasswordHash::new(&hash).unwrap()` panics on a malformed
hash string; otherwise `verify_password(..).map(|_| true)`. -/
def argonVerify (st : Option HasherConfig) (password : List Nat) (h : HashStr) :
    Outcome (Except PHError Bool) :=
  match st with
  | none => .panicked
  | some cfg =>
    match parseHash h with
    | none => .panicked
    | some ph => .ok ((verify_password cfg password ph).map fun _ => true)


/-! ## The Verification Store (Redis) and serialized payloads -/

/-- `CodeData` from `src/routes/password.rs:27`. -/
structure CodeData where
  code : String
  expires_at : Int
deriving DecidableEq, Repr

/-- `TokenData` from `src/routes/password.rs:33`. -/
structure TokenData where
  token : String
  expires_at : Int
deriving DecidableEq, Repr

/-- Projection of the `user::Model` entity (the entity definition lives in
generated ORM code outside `src/`; per spec §3 a User has an identifier, a
unique email and a password hash — the fields this core reads). -/
structure UserRec where
  id : String
  email : String
  password : HashStr
deriving DecidableEq, Repr

/-- A value stored in Redis: `raw` stands for an arbitrary string payload
that does not deserialize to any of the expected shapes; the other
constructors are the `serde_json` serializations of the typed payloads
(serialization round-trips, so the constructor carries the payload). -/
inductive StoredVal where
  | raw (s : String)
  | code (d : CodeData)
  | token (d : TokenData)
  | user (u : UserRec)
deriving DecidableEq, Repr

/-- `serde_json::from_str::<CodeData>`: succeeds exactly on a serialized
`CodeData`. -/
def parseCodeData : StoredVal → Option CodeData
  | .code d => some d
  | _ => none

/-- `serde_json::from_str::<TokenData>`. -/
def parseTokenData : StoredVal → Option TokenData
  | .token d => some d
  | _ => none

/-- `serde_json::from_str::<user::Model>`. -/
def parseUserRec : StoredVal → Option UserRec
  | .user u => some u
  | _ => none

/-- One Redis entry: key, value and the absolute instant at which the
store's own TTL makes the entry vanish. -/
structure REntry where
  key : String
  val : StoredVal
  expiresAt : Int
deriving DecidableEq, Repr

/-- The Redis store: association list, first binding for a key wins. -/
abbrev RStore := List REntry

/-- Redis `GET`: a binding is visible only while its TTL has not elapsed. -/
def storeGet (s : RStore) (now : Int) (k : String) : Option StoredVal :=
  match s.find? (fun e => e.key == k) with
  | some e => if now < e.expiresAt then some e.val else none
  | none => none

/-- Redis `SET .. EX ttl`: upsert, replacing any prior binding and
resetting the TTL. -/
def storeSetEx (s : RStore) (now : Int) (k : String) (v : StoredVal) (ttl : Nat) : RStore :=
  ⟨k, v, now + ttl⟩ :: s.filter (fun e => !(e.key == k))

/-- Redis `DEL`: idempotent removal. -/
def storeDel (s : RStore) (k : String) : RStore :=
  s.filter (fun e => !(e.key == k))

/-- Redis `GETEX .. EX ttl` (`get_ex`): a read that also resets the
remaining TTL of the binding it hits. -/
def storeGetEx (s : RStore) (now : Int) (k : String) (ttl : Nat) :
    Option StoredVal × RStore :=
  match storeGet s now k with
  | some v => (some v, storeSetEx s now k v ttl)
  | none => (none, s)

/-! ## Constants and keys -/

/-- `CODE_TTL_SECONDS` (`src/routes/password.rs:14`). -/
def CODE_TTL_SECONDS : Nat := 10 * 60

/-- `TOKEN_TTL_SECONDS` (`src/routes/password.rs:15`). -/
def TOKEN_TTL_SECONDS : Nat := 15 * 60

/-- `REDIS_EXPIRY_SECONDS` (`src/constants.rs:4`), the user-cache TTL. -/
def REDIS_EXPIRY_SECONDS : Nat := 60

/-- `code_key` (`src/routes/password.rs:18`). -/
def code_key (email : String) : String := "password_reset:code:" ++ email

/-- `token_key` (`src/routes/password.rs:22`). -/
def token_key (email : String) : String := "password_reset:token:" ++ email

/-- The `user_{id}` cache key used in `src/login_system.rs` and
`src/routes/password.rs:339`. -/
def user_key (id : String) : String := "user_" ++ id

/-- Model of Rust `str::trim`: drop leading and trailing whitespace. -/
def rustTrim (s : String) : String :=
  ⟨((s.data.dropWhile Char.isWhitespace).reverse.dropWhile Char.isWhitespace).reverse⟩

/-- An HTTP response as produced by the handlers: status code and body (for
the `verify_code` success response, the body is the issued reset token). -/
structure HttpResponse where
  status : Nat
  body : String
deriving DecidableEq, Repr


/-! ## `forgot_password` (`src/routes/password.rs:78`) -/

/-- Failure oracle for one `forgot_password` run: the outcome of each
fallible external call made by the handler, in source order (`Err`/`Ok` of
the database query, the Redis `SET`, the ignored Redis `DEL` of the stale
token, and the email send). -/
structure ForgotOracle where
  dbFails : Bool
  setFails : Bool
  delFails : Bool
  emailFails : Bool
deriving DecidableEq, Repr

/-- Observable outcome of a `forgot_password` run: the HTTP response, the
resulting Redis store, and the `send_email` calls attempted
(to, subject, content). -/
structure ForgotResult where
  resp : HttpResponse
  store : RStore
  emailAttempts : List (String × String × String)
deriving DecidableEq, Repr

/-- Body of the reset-code email built at `src/routes/password.rs:133`. -/
def resetEmailContent (code : String) : String :=
  "Your password reset verification code is: " ++ code ++
    "\n\nThis code will expire in " ++ toString (CODE_TTL_SECONDS / 60) ++ " minutes."

/-- The `forgot_password` handler.  `db` is the durable user table,
`freshCode` the 6-digit code drawn by `gen_6_digit_code()` (the nanoid RNG
is a parameter of the model), `bodyEmail` the request body's email. -/
def forgot_password (db : List UserRec) (store : RStore) (o : ForgotOracle)
    (now : Int) (freshCode : String) (bodyEmail : String) : ForgotResult :=
  let email := rustTrim bodyEmail
  if o.dbFails then ⟨⟨500, "Failed to query user"⟩, store, []⟩
  else if (db.find? (fun u => u.email == email)).isSome then
    let expires_at : Int := now + 60 * ((CODE_TTL_SECONDS : Int) / 60)
    if o.setFails then ⟨⟨500, "Failed to create reset record"⟩, store, []⟩
    else
      let s1 := storeSetEx store now (code_key email)
        (.code ⟨freshCode, expires_at⟩) CODE_TTL_SECONDS
      let s2 := if o.delFails then s1 else storeDel s1 (token_key email)
      let attempts := [(email, "Password Reset Verification Code",
        resetEmailContent freshCode)]
      if o.emailFails then ⟨⟨500, "Failed to send email"⟩, s2, attempts⟩
      else ⟨⟨200, "If the email exists, a reset code has been sent."⟩, s2, attempts⟩
  else ⟨⟨200, "If the email exists, a reset code has been sent."⟩, store, []⟩

/-! ## `verify_code` (`src/routes/password.rs:162`) -/

/-- Failure oracle for one `verify_code` run: the Redis `GET` of the code
record, the Redis `SET` of the token record, and the ignored Redis `DEL` of
the code record. -/
structure VerifyOracle where
  getFails : Bool
  setFails : Bool
  delFails : Bool
deriving DecidableEq, Repr

/-- The `verify_code` handler.  `freshToken` is the token drawn by
`nanoid!(32)`; on the 200 response the body is the issued reset token
(the `Json(VerifyCodeResponse)` payload). -/
def verify_code (store : RStore) (o : VerifyOracle) (now : Int)
    (freshToken : String) (bodyEmail bodyCode : String) : HttpResponse × RStore :=
  let email := rustTrim bodyEmail
  let code := rustTrim bodyCode
  let invalid : HttpResponse × RStore := (⟨400, "Invalid or expired code"⟩, store)
  if o.getFails then invalid
  else
    match storeGet store now (code_key email) with
    | none => invalid
    | some v =>
      match parseCodeData v with
      | none => invalid
      | some cd =>
        if cd.code ≠ code ∨ cd.expires_at ≤ now then invalid
        else
          let expires_at : Int := now + 60 * ((TOKEN_TTL_SECONDS : Int) / 60)
          if o.setFails then (⟨500, "Failed to update reset record"⟩, store)
          else
            let s1 := storeSetEx store now (token_key email)
              (.token ⟨freshToken, expires_at⟩) TOKEN_TTL_SECONDS
            let s2 := if o.delFails then s1 else storeDel s1 (code_key email)
            (⟨200, freshToken⟩, s2)

/-! ## `reset_password` (`src/routes/password.rs:251`) -/

/-- Failure oracle for one `reset_password` run: the Redis `GET` of the
token record, the database lookup, the hasher call, the database update,
and the two ignored Redis `DEL`s (user cache, token record). -/
structure ResetOracle where
  getFails : Bool
  dbFindFails : Bool
  hashFails : Bool
  updateFails : Bool
  delUserFails : Bool
  delTokenFails : Bool
deriving DecidableEq, Repr

/-- Observable outcome of a `reset_password` run. -/
structure ResetResult where
  resp : HttpResponse
  store : RStore
  db : List UserRec
deriving DecidableEq, Repr

/-- `ua.update(&state.db)` with `ua.password = Set(new_hash)`: replace the
password hash of the row with the given id. -/
def dbUpdatePassword (db : List UserRec) (id : String) (h : HashStr) : List UserRec :=
  db.map (fun u => if u.id == id then { u with password := h } else u)

/-- Rust `str::as_bytes`, at the granularity of characters. -/
def strBytes (s : String) : List Nat := s.data.map Char.toNat

/-- The `reset_password` handler.  `cfg` is the configuration installed in
`GLOBAL_ARGON2` at startup (`main.rs` calls `set_config` before serving);
`salt` is the fresh salt drawn inside `argon_hasher::hash`. -/
def reset_password (cfg : HasherConfig) (db : List UserRec) (store : RStore)
    (o : ResetOracle) (now : Int) (salt : Nat)
    (bodyEmail bodyToken newPassword confirm : String) : ResetResult :=
  let email := rustTrim bodyEmail
  let token := rustTrim bodyToken
  if newPassword ≠ confirm then
    ⟨⟨400, "New password and confirm password are not same"⟩, store, db⟩
  else
    let invalid : ResetResult := ⟨⟨400, "Invalid or expired reset token"⟩, store, db⟩
    if o.getFails then invalid
    else
      match storeGet store now (token_key email) with
      | none => invalid
      | some v =>
        match parseTokenData v with
        | none => invalid
        | some td =>
          if td.token ≠ token ∨ td.expires_at ≤ now then invalid
          else if o.dbFindFails then ⟨⟨500, "Failed to query user"⟩, store, db⟩
          else
            match db.find? (fun u => u.email == email) with
            | none => ⟨⟨404, "User not found"⟩, store, db⟩
            | some u =>
              if o.hashFails then ⟨⟨500, "Failed to hash password"⟩, store, db⟩
              else
                let newHash := hash_password cfg salt (strBytes newPassword)
                if o.updateFails then ⟨⟨500, "Failed to update password"⟩, store, db⟩
                else
                  let db1 := dbUpdatePassword db u.id newHash
                  let s1 := if o.delUserFails then store else storeDel store (user_key u.id)
                  let s2 := if o.delTokenFails then s1 else storeDel s1 (token_key email)
                  ⟨⟨200, "Password reset successfully"⟩, s2, db1⟩

/-! ## `get_user` (`src/login_system.rs:79`) -/

/-- `sea_orm::DbErr`, kept abstract. -/
inductive DbErr where
  | dbErr
deriving DecidableEq, Repr

/-- Failure oracle for one `get_user` run: the Redis `GETEX`, the database
lookup, and the best-effort Redis `SET` repopulating the cache. -/
structure GetUserOracle where
  getExFails : Bool
  dbFails : Bool
  setFails : Bool
deriving DecidableEq, Repr

/-- Observable outcome of a `get_user` run: the Rust return value
(`Result<Option<User>, DbErr>`), the resulting Redis store, and the number
of durable-store reads performed. -/
structure GetUserResult where
  result : Except DbErr (Option UserRec)
  store : RStore
  dbReads : Nat
deriving Repr

/-- The `get_user` lookup of `AuthnBackend` in `src/login_system.rs`:
cache-aside over the `user_{id}` key with a TTL-refreshing read. -/
def get_user (db : List UserRec) (store : RStore) (o : GetUserOracle)
    (now : Int) (userId : String) : GetUserResult :=
  let key := user_key userId
  let (cached, store1) :=
    if o.getExFails then (none, store)
    else storeGetEx store now key REDIS_EXPIRY_SECONDS
  match cached.bind parseUserRec with
  | some u => ⟨.ok (some u), store1, 0⟩
  | none =>
    if o.dbFails then ⟨.error .dbErr, store1, 1⟩
    else
      match db.find? (fun u => u.id == userId) with
      | some u =>
        let store2 := if o.setFails then store1
          else storeSetEx store1 now key (.user u) REDIS_EXPIRY_SECONDS
        ⟨.ok (some u), store2, 1⟩
      | none => ⟨.ok none, store1, 1⟩


/-! ## Helper lemmas -/

/-- The modelled digest is injective in the password for a fixed pepper and
salt: two distinct passwords never share a digest. -/
lemma argonDigest_inj (secret : List Nat) (salt : Nat) (p1 p2 : List Nat)
    (h : argonDigest secret salt p1 = argonDigest secret salt p2) : p1 = p2 := by
  unfold argonDigest at h
  have h2 := List.append_cancel_left h
  exact (List.cons.injEq _ _ _ _ ▸ h2).2

/-! ## C2 — `verify` error behaviour on mismatch and malformed hashes -/

/-- The concrete configuration used in closed witnesses below. -/
def cfg0 : HasherConfig := ⟨[9], 1, 1, 8⟩

/-- C2, counterexample: at the concrete configuration `cfg0`, with
passwords `[1] ≠ [2]`, `verify(p2, hash(p1))` is `Ok(Err(Password))` — the
call does not return the boolean `false`; and on a malformed hash string
`verify` panics (the `unwrap` at `src/argonhasher.rs:68`) instead of
returning a `HashingError`. -/
theorem verify_mismatch_not_false_cex :
    argonVerify (some cfg0) [2] (hash_password cfg0 0 [1]) = .ok (.error .password)
    ∧ argonVerify (some cfg0) [2] (hash_password cfg0 0 [1]) ≠ .ok (.ok false)
    ∧ argonVerify (some cfg0) [2] (.malformed "not-a-phc-string") = .panicked := by
  refine ⟨rfl, ?_, rfl⟩
  intro h
  rw [show argonVerify (some cfg0) [2] (hash_password cfg0 0 [1]) =
      .ok (.error .password) from rfl] at h
  simp at h

/-- C2, amended: for every configured instance, `verify` on a well-formed
hash returns `Ok(true)` on a digest match and `Ok(Err(Password))` — never
`Ok(false)` — on a mismatch; on a malformed hash string it panics rather
than returning a `HashingError`; in particular for `p1 ≠ p2`,
`verify(p2, hash(p1))` is `Ok(Err(Password))`. -/
theorem verify_mismatch_is_password_error (cfg : HasherConfig)
    (p p1 p2 : List Nat) (salt : Nat) (ph : ParsedHash) (s : String)
    (hne : p1 ≠ p2) :
    argonVerify (some cfg) p (.phc ph) =
      .ok (if ph.digest = argonDigest cfg.secret_key ph.salt p then .ok true
           else .error .password)
    ∧ argonVerify (some cfg) p (.malformed s) = .panicked
    ∧ argonVerify (some cfg) p2 (hash_password cfg salt p1) = .ok (.error .password) := by
  refine ⟨?_, rfl, ?_⟩
  · by_cases hd : ph.digest = argonDigest cfg.secret_key ph.salt p <;>
      simp [argonVerify, parseHash, verify_password, hd, Except.map]
  · have hd : ¬ argonDigest cfg.secret_key salt p1 = argonDigest cfg.secret_key salt p2 :=
      fun h => hne (argonDigest_inj _ _ _ _ h)
    simp [argonVerify, hash_password, parseHash, verify_password, hd, Except.map]

/-- C2, witness: the amended theorem applied at `cfg0`, `p1 = [1]`,
`p2 = [2]`. -/
theorem verify_mismatch_is_password_error_witness :
    argonVerify (some cfg0) [2] (hash_password cfg0 0 [1]) = .ok (.error .password) :=
  (verify_mismatch_is_password_error cfg0 [0] [1] [2] 0 ⟨8, 1, 1, 0, []⟩ ""
    (by decide)).2.2

/-! ## C3 — hash round-trip and per-call salt freshness -/

/-- C3: for every configured instance and password, `hash` derives the PHC
string from the fresh per-call salt, two calls with distinct salts yield
distinct hash strings, and both verify `Ok(true)` against the password. -/
theorem hash_round_trip_distinct_salts (cfg : HasherConfig) (p : List Nat)
    (s1 s2 : Nat) (hs : s1 ≠ s2) :
    argonHash (some cfg) s1 p = .ok (.ok (hash_password cfg s1 p))
    ∧ hash_password cfg s1 p ≠ hash_password cfg s2 p
    ∧ argonVerify (some cfg) p (hash_password cfg s1 p) = .ok (.ok true)
    ∧ argonVerify (some cfg) p (hash_password cfg s2 p) = .ok (.ok true) := by
  refine ⟨rfl, ?_, ?_, ?_⟩
  · intro h
    simp only [hash_password, HashStr.phc.injEq, ParsedHash.mk.injEq] at h
    exact hs h.2.2.2.1
  · simp [argonVerify, hash_password, parseHash, verify_password, Except.map]
  · simp [argonVerify, hash_password, parseHash, verify_password, Except.map]

/-- C3, witness: round trip and distinctness at `cfg0`, password `[7]`,
salts `0 ≠ 1`. -/
theorem hash_round_trip_distinct_salts_witness :
    hash_password cfg0 0 [7] ≠ hash_password cfg0 1 [7]
    ∧ argonVerify (some cfg0) [7] (hash_password cfg0 0 [7]) = .ok (.ok true) :=
  ⟨(hash_round_trip_distinct_salts cfg0 [7] 0 1 (by decide)).2.1,
   (hash_round_trip_distinct_salts cfg0 [7] 0 1 (by decide)).2.2.1⟩

/-! ## C8 — `set_config` called twice / invalid parameters -/

/-- C8, counterexample: calling `set_config` a second time with valid
parameters does not fail fatally — `let _ = GLOBAL_ARGON2.set(..)` at
`src/argonhasher.rs:35` discards the `OnceLock::set` error, so the call
returns normally and the first configuration stays installed. -/
theorem set_config_second_call_cex :
    set_config (some ⟨[1], 1, 1, 8⟩) ⟨[2], 2, 1, 8⟩ = .ok (some ⟨[1], 1, 1, 8⟩)
    ∧ set_config (some ⟨[1], 1, 1, 8⟩) ⟨[2], 2, 1, 8⟩ ≠ .panicked := by
  constructor
  · rfl
  · decide

/-- C8, amended: `set_config` fails fatally exactly when the supplied cost
parameters are invalid (`Params::new(..).unwrap()`); a first call with valid
parameters installs the configuration, and any later call is silently
ignored, leaving the first configuration in effect; `hash` and `verify` use
whatever configuration the global holds (and panic when it is empty). -/
theorem set_config_first_call_wins (st : Option HasherConfig)
    (c old : HasherConfig) (salt : Nat) (p : List Nat)
    (hvalid : paramsValid c = true) :
    (∀ c', paramsValid c' = false → set_config st c' = .panicked)
    ∧ set_config none c = .ok (some c)
    ∧ set_config (some old) c = .ok (some old)
    ∧ argonHash (some old) salt p = .ok (.ok (hash_password old salt p))
    ∧ argonHash none salt p = .panicked := by
  refine ⟨?_, ?_, ?_, rfl, rfl⟩
  · intro c' hc'
    simp [set_config, hc']
  · simp [set_config, hvalid]
  · simp [set_config, hvalid]

/-- C8, witness: the amended theorem at concrete configurations — an
invalid (zero-cost) configuration panics, a repeated call keeps the first
configuration. -/
theorem set_config_first_call_wins_witness :
    set_config (some cfg0) ⟨[2], 0, 1, 8⟩ = .panicked
    ∧ set_config (some cfg0) ⟨[2], 2, 1, 8⟩ = .ok (some cfg0) :=
  ⟨(set_config_first_call_wins (some cfg0) ⟨[2], 2, 1, 8⟩ cfg0 0 [] (by decide)).1
      ⟨[2], 0, 1, 8⟩ (by decide),
   (set_config_first_call_wins (some cfg0) ⟨[2], 2, 1, 8⟩ cfg0 0 [] (by decide)).2.2.1⟩

/-! ## Store lemmas -/

lemma find?_filter_of_imp {α} (l : List α) (p q : α → Bool)
    (h : ∀ e, p e = true → q e = true) : (l.filter q).find? p = l.find? p := by
  induction l with
  | nil => rfl
  | cons e t ih =>
    by_cases hp : p e = true
    · have hq := h e hp
      simp [List.filter_cons, hq, List.find?_cons, hp]
    · by_cases hq : q e = true <;>
        simp [List.filter_cons, hq, List.find?_cons, hp, ih]

lemma storeGet_del_self (s : RStore) (k : String) (now : Int) :
    storeGet (storeDel s k) now k = none := by
  unfold storeGet storeDel
  have hf : (s.filter fun e => !(e.key == k)).find? (fun e => e.key == k) = none := by
    rw [List.find?_eq_none]
    intro e he
    have hm := (List.mem_filter.mp he).2
    simp at hm ⊢
    exact hm
  rw [hf]

lemma storeGet_del_other (s : RStore) (k k' : String) (now : Int) (h : k' ≠ k) :
    storeGet (storeDel s k) now k' = storeGet s now k' := by
  unfold storeGet storeDel
  rw [find?_filter_of_imp]
  intro e he
  simp at he ⊢
  rw [he]
  exact h

lemma storeGet_setEx_self (s : RStore) (now : Int) (k : String) (v : StoredVal)
    (ttl : Nat) (h : 0 < ttl) :
    storeGet (storeSetEx s now k v ttl) now k = some v := by
  unfold storeGet storeSetEx
  have hlt : now < now + (ttl : Int) := by omega
  simp [List.find?_cons, hlt]

lemma storeGet_setEx_other (s : RStore) (now now' : Int) (k k' : String)
    (v : StoredVal) (ttl : Nat) (h : k' ≠ k) :
    storeGet (storeSetEx s now k v ttl) now' k' = storeGet s now' k' := by
  unfold storeGet storeSetEx
  rw [List.find?_cons_of_neg, find?_filter_of_imp]
  · intro e he
    simp at he ⊢
    rw [he]; exact h
  · simp
    exact fun hh => h hh.symm

lemma token_key_ne_code_key (e : String) : token_key e ≠ code_key e := by
  intro h
  have h2 := congrArg String.length h
  simp only [token_key, code_key, String.length_append] at h2
  rw [show ("password_reset:token:").length = 21 from rfl,
      show ("password_reset:code:").length = 20 from rfl] at h2
  omega

lemma user_key_ne_token_key (i e : String) : user_key i ≠ token_key e := by
  intro h
  have h2 := congrArg (fun s => s.data.head?) h
  simp only [user_key, token_key, String.data_append] at h2
  simp at h2

/-! ## C1 — `verify_code` retires the code record -/

/-- C1, counterexample: the code record is deleted only after the token is
stored, and the `DEL` result is discarded (`src/routes/password.rs:233`);
when that delete fails, `verify_code` still returns 200 with the token while
the code record remains live and unexpired in the store — a valid code
record and a valid token record coexist after the call returns. -/
theorem verify_code_live_code_after_token_cex :
    (verify_code [⟨code_key "a@b", .code ⟨"123456", 1000⟩, 2000⟩]
      ⟨false, false, true⟩ 500 "T" "a@b" "123456").1 = ⟨200, "T"⟩
    ∧ storeGet (verify_code [⟨code_key "a@b", .code ⟨"123456", 1000⟩, 2000⟩]
        ⟨false, false, true⟩ 500 "T" "a@b" "123456").2 500 (code_key "a@b")
      = some (.code ⟨"123456", 1000⟩)
    ∧ (500 : Int) < 1000 := by decide

/-- C1, amended: when `verify_code` returns the token (status 200) *and*
the best-effort delete of the code record succeeds, no code record for that
email remains in the store, and the token record is installed; the delete
happens strictly after the token write and its failure is ignored, so the
retirement is only guaranteed on schedules where that delete succeeds. -/
theorem verify_code_retires_code (store : RStore) (o : VerifyOracle) (now : Int)
    (tok be bc : String) (hdel : o.delFails = false)
    (h200 : (verify_code store o now tok be bc).1.status = 200) :
    storeGet (verify_code store o now tok be bc).2 now (code_key (rustTrim be)) = none
    ∧ storeGet (verify_code store o now tok be bc).2 now (token_key (rustTrim be))
      = some (.token ⟨tok, now + 60 * ((TOKEN_TTL_SECONDS : Int) / 60)⟩) := by
  by_cases hg : o.getFails = true
  · simp [verify_code, hg] at h200
  · rcases hv : storeGet store now (code_key (rustTrim be)) with _ | v
    · simp [verify_code, hg, hv] at h200
    · rcases hp : parseCodeData v with _ | cd
      · simp [verify_code, hg, hv, hp] at h200
      · by_cases hcond : cd.code ≠ rustTrim bc ∨ cd.expires_at ≤ now
        · simp [verify_code, hg, hv, hp, hcond] at h200
        · by_cases hs : o.setFails = true
          · simp [verify_code, hg, hv, hp, hcond, hs] at h200
          · simp only [verify_code, hg, hv, hp, hcond, hs, hdel,
              Bool.false_eq_true, if_false, if_neg hcond]
            constructor
            · exact storeGet_del_self _ _ _
            · rw [storeGet_del_other _ _ _ _ (token_key_ne_code_key _),
                storeGet_setEx_self]
              decide

/-- C1, witness: the amended theorem at a concrete store on a schedule
where the delete succeeds. -/
theorem verify_code_retires_code_witness :
    storeGet (verify_code [⟨code_key "a@b", .code ⟨"123456", 1000⟩, 2000⟩]
      ⟨false, false, false⟩ 500 "T" "a@b" "123456").2 500 (code_key (rustTrim "a@b")) = none
    ∧ storeGet (verify_code [⟨code_key "a@b", .code ⟨"123456", 1000⟩, 2000⟩]
        ⟨false, false, false⟩ 500 "T" "a@b" "123456").2 500 (token_key (rustTrim "a@b"))
      = some (.token ⟨"T", 500 + 60 * ((TOKEN_TTL_SECONDS : Int) / 60)⟩) :=
  verify_code_retires_code _ ⟨false, false, false⟩ 500 "T" "a@b" "123456" rfl (by decide)

/-! ## C4 — `verify_code` fails closed -/

/-- C4: `verify_code` answers 400 "Invalid or expired code" and leaves the
store untouched (so no token is issued) whenever the Redis read fails, the
code record is absent, the stored payload does not parse, the stored code
differs from the candidate, or the stored expiry has passed; when the code
is valid but the Redis write of the token record fails, it answers 500 and
still leaves the store untouched. -/
theorem verify_code_fail_closed (store : RStore) (o : VerifyOracle) (now : Int)
    (tok be bc : String) :
    (o.getFails = true →
      verify_code store o now tok be bc = (⟨400, "Invalid or expired code"⟩, store))
    ∧ (storeGet store now (code_key (rustTrim be)) = none →
      verify_code store o now tok be bc = (⟨400, "Invalid or expired code"⟩, store))
    ∧ (∀ v cd, storeGet store now (code_key (rustTrim be)) = some v →
        parseCodeData v = some cd → cd.code ≠ rustTrim bc →
        verify_code store o now tok be bc = (⟨400, "Invalid or expired code"⟩, store))
    ∧ (∀ v cd, storeGet store now (code_key (rustTrim be)) = some v →
        parseCodeData v = some cd → cd.expires_at ≤ now →
        verify_code store o now tok be bc = (⟨400, "Invalid or expired code"⟩, store))
    ∧ (∀ v, storeGet store now (code_key (rustTrim be)) = some v →
        parseCodeData v = none →
        verify_code store o now tok be bc = (⟨400, "Invalid or expired code"⟩, store))
    ∧ (∀ v cd, o.getFails = false → o.setFails = true →
        storeGet store now (code_key (rustTrim be)) = some v →
        parseCodeData v = some cd → cd.code = rustTrim bc → now < cd.expires_at →
        verify_code store o now tok be bc = (⟨500, "Failed to update reset record"⟩, store)) := by
  refine ⟨?_, ?_, ?_, ?_, ?_, ?_⟩
  · intro hg
    simp [verify_code, hg]
  · intro hv
    by_cases hg : o.getFails = true <;> simp [verify_code, hg, hv]
  · intro v cd hv hp hne
    by_cases hg : o.getFails = true <;> simp [verify_code, hg, hv, hp, hne]
  · intro v cd hv hp hexp
    by_cases hg : o.getFails = true <;> simp [verify_code, hg, hv, hp, hexp]
  · intro v hv hp
    by_cases hg : o.getFails = true <;> simp [verify_code, hg, hv, hp]
  · intro v cd hg hs hv hp heq hexp
    have hcond : ¬(cd.code ≠ rustTrim bc ∨ cd.expires_at ≤ now) := by
      rintro (h | h)
      · exact h heq
      · omega
    simp [verify_code, hg, hs, hv, hp, hcond]

/-- C4, witness: an absent code record is rejected 400 with the store
untouched; a token-write failure on an otherwise valid code yields 500. -/
theorem verify_code_fail_closed_witness :
    verify_code [] ⟨false, false, false⟩ 0 "T" "a@b" "1"
      = (⟨400, "Invalid or expired code"⟩, [])
    ∧ verify_code [⟨code_key "a@b", .code ⟨"123456", 1000⟩, 2000⟩]
        ⟨false, true, false⟩ 500 "T" "a@b" "123456"
      = (⟨500, "Failed to update reset record"⟩,
         [⟨code_key "a@b", .code ⟨"123456", 1000⟩, 2000⟩]) :=
  ⟨(verify_code_fail_closed [] ⟨false, false, false⟩ 0 "T" "a@b" "1").2.1 (by decide),
   (verify_code_fail_closed _ ⟨false, true, false⟩ 500 "T" "a@b" "123456").2.2.2.2.2
     (.code ⟨"123456", 1000⟩) ⟨"123456", 1000⟩ rfl rfl (by decide) rfl (by decide)
     (by decide)⟩

/-! ## C5 — `forgot_password` anti-enumeration -/

/-- Absent infrastructure failures, `forgot_password` answers
200/"If the email exists..." on every input. -/
lemma forgot_resp_ok (db : List UserRec) (s : RStore) (o : ForgotOracle) (n : Int)
    (c email : String) (hdb : o.dbFails = false) (hset : o.setFails = false)
    (hmail : o.emailFails = false) :
    (forgot_password db s o n c email).resp
      = ⟨200, "If the email exists, a reset code has been sent."⟩ := by
  by_cases hex : (db.find? (fun u => u.email == rustTrim email)).isSome = true <;>
    simp [forgot_password, hdb, hset, hmail, hex]

/-- C5: absent infrastructure failures, the response of `forgot_password`
is the same whatever the user table, the store, the clock and the generated
code — in particular identical for an existing and for a non-existent
account — and no email is sent when the account does not exist. -/
theorem forgot_password_anti_enumeration (db1 db2 : List UserRec)
    (s1 s2 : RStore) (o : ForgotOracle) (n1 n2 : Int) (c1 c2 email : String)
    (hdb : o.dbFails = false) (hset : o.setFails = false) (hmail : o.emailFails = false) :
    (forgot_password db1 s1 o n1 c1 email).resp = (forgot_password db2 s2 o n2 c2 email).resp
    ∧ (forgot_password db1 s1 o n1 c1 email).resp
      = ⟨200, "If the email exists, a reset code has been sent."⟩
    ∧ (db2.find? (fun u => u.email == rustTrim email) = none →
        (forgot_password db2 s2 o n2 c2 email).emailAttempts = []) := by
  refine ⟨?_, forgot_resp_ok db1 s1 o n1 c1 email hdb hset hmail, ?_⟩
  · rw [forgot_resp_ok db1 s1 o n1 c1 email hdb hset hmail,
        forgot_resp_ok db2 s2 o n2 c2 email hdb hset hmail]
  · intro hex
    simp [forgot_password, hdb, hex]

/-- C5, witness: a table containing `a@b` versus an empty table. -/
theorem forgot_password_anti_enumeration_witness :
    (forgot_password [⟨"u1", "a@b", .malformed "h"⟩] [] ⟨false, false, false, false⟩
        0 "111111" "a@b").resp
      = (forgot_password [] [] ⟨false, false, false, false⟩ 0 "111111" "a@b").resp
    ∧ (forgot_password [] [] ⟨false, false, false, false⟩ 0 "111111" "a@b").emailAttempts
      = [] :=
  ⟨(forgot_password_anti_enumeration [⟨"u1", "a@b", .malformed "h"⟩] [] [] []
      ⟨false, false, false, false⟩ 0 0 "111111" "111111" "a@b" rfl rfl rfl).1,
   (forgot_password_anti_enumeration [⟨"u1", "a@b", .malformed "h"⟩] [] [] []
      ⟨false, false, false, false⟩ 0 0 "111111" "111111" "a@b" rfl rfl rfl).2.2 rfl⟩

/-! ## C10 — failed email send leaves the written code record live -/

/-- C10: when the account exists, the Redis write of the code record
succeeds and the email send then fails, `forgot_password` answers 500
"Failed to send email", yet the just-written code record remains live in
the store (it is not rolled back). -/
theorem forgot_password_email_failure_leaves_code (db : List UserRec)
    (store : RStore) (o : ForgotOracle) (now : Int) (c email : String)
    (hex : (db.find? (fun u => u.email == rustTrim email)).isSome = true)
    (hdb : o.dbFails = false) (hset : o.setFails = false)
    (hmail : o.emailFails = true) :
    (forgot_password db store o now c email).resp = ⟨500, "Failed to send email"⟩
    ∧ storeGet (forgot_password db store o now c email).store now
        (code_key (rustTrim email))
      = some (.code ⟨c, now + 60 * ((CODE_TTL_SECONDS : Int) / 60)⟩) := by
  constructor
  · simp [forgot_password, hdb, hset, hmail, hex]
  · by_cases hdel : o.delFails = true
    · simp [forgot_password, hdb, hset, hmail, hex, hdel]
      exact storeGet_setEx_self _ _ _ _ _ (by decide)
    · simp [forgot_password, hdb, hset, hmail, hex, hdel]
      rw [storeGet_del_other _ _ _ _ (token_key_ne_code_key (rustTrim email)).symm]
      exact storeGet_setEx_self _ _ _ _ _ (by decide)

/-- C10, witness: concrete run for the account `a@b` where the email send
fails after the code record was written. -/
theorem forgot_password_email_failure_leaves_code_witness :
    (forgot_password [⟨"u1", "a@b", .malformed "h"⟩] [] ⟨false, false, false, true⟩
        0 "111111" "a@b").resp = ⟨500, "Failed to send email"⟩
    ∧ storeGet (forgot_password [⟨"u1", "a@b", .malformed "h"⟩] []
        ⟨false, false, false, true⟩ 0 "111111" "a@b").store 0
        (code_key (rustTrim "a@b"))
      = some (.code ⟨"111111", 0 + 60 * ((CODE_TTL_SECONDS : Int) / 60)⟩) :=
  forgot_password_email_failure_leaves_code [⟨"u1", "a@b", .malformed "h"⟩] []
    ⟨false, false, false, true⟩ 0 "111111" "a@b" (by decide) rfl rfl rfl

/-! ## C6 — effects of a successful `reset_password` -/

/-- C6, counterexample: the two `DEL`s after the password update discard
their results (`src/routes/password.rs:339` and `:342`); on a schedule
where both deletes fail, `reset_password` still answers 200 while the
cached user snapshot and the reset token record both remain live in the
store. -/
theorem reset_password_deletes_ignored_cex :
    (reset_password cfg0 [⟨"u1", "a@b", .malformed "old"⟩]
        [⟨token_key "a@b", .token ⟨"T", 1000⟩, 2000⟩,
         ⟨user_key "u1", .user ⟨"u1", "a@b", .malformed "old"⟩, 2000⟩]
        ⟨false, false, false, false, true, true⟩ 500 0 "a@b" "T" "npw" "npw").resp
      = ⟨200, "Password reset successfully"⟩
    ∧ storeGet (reset_password cfg0 [⟨"u1", "a@b", .malformed "old"⟩]
        [⟨token_key "a@b", .token ⟨"T", 1000⟩, 2000⟩,
         ⟨user_key "u1", .user ⟨"u1", "a@b", .malformed "old"⟩, 2000⟩]
        ⟨false, false, false, false, true, true⟩ 500 0 "a@b" "T" "npw" "npw").store
        500 (user_key "u1")
      = some (.user ⟨"u1", "a@b", .malformed "old"⟩)
    ∧ storeGet (reset_password cfg0 [⟨"u1", "a@b", .malformed "old"⟩]
        [⟨token_key "a@b", .token ⟨"T", 1000⟩, 2000⟩,
         ⟨user_key "u1", .user ⟨"u1", "a@b", .malformed "old"⟩, 2000⟩]
        ⟨false, false, false, false, true, true⟩ 500 0 "a@b" "T" "npw" "npw").store
        500 (token_key "a@b")
      = some (.token ⟨"T", 1000⟩) := by decide

/-- C6, amended: on a successful `reset_password` (valid unexpired token,
matching confirmation, existing user, successful hash and update), the
user's stored hash is replaced with the hash of the new password; the
cached snapshot `user_{id}` and the token record are then deleted by two
best-effort `DEL`s whose failures are ignored, so their absence is
guaranteed only on schedules where those deletes succeed. -/
theorem reset_password_success_effects (cfg : HasherConfig) (db : List UserRec)
    (store : RStore) (o : ResetOracle) (now : Int) (salt : Nat)
    (email token npw confirm : String) (v : StoredVal) (td : TokenData) (u : UserRec)
    (hc : npw = confirm)
    (hg : o.getFails = false)
    (hv : storeGet store now (token_key (rustTrim email)) = some v)
    (htd : parseTokenData v = some td)
    (ht : td.token = rustTrim token)
    (hexp : now < td.expires_at)
    (hdbf : o.dbFindFails = false)
    (hu : db.find? (fun x => x.email == rustTrim email) = some u)
    (hh : o.hashFails = false)
    (hup : o.updateFails = false)
    (hdu : o.delUserFails = false)
    (hdt : o.delTokenFails = false) :
    (reset_password cfg db store o now salt email token npw confirm).resp
      = ⟨200, "Password reset successfully"⟩
    ∧ (reset_password cfg db store o now salt email token npw confirm).db
      = dbUpdatePassword db u.id (hash_password cfg salt (strBytes npw))
    ∧ (∀ w ∈ (reset_password cfg db store o now salt email token npw confirm).db,
        w.id = u.id → w.password = hash_password cfg salt (strBytes npw))
    ∧ storeGet (reset_password cfg db store o now salt email token npw confirm).store
        now (user_key u.id) = none
    ∧ storeGet (reset_password cfg db store o now salt email token npw confirm).store
        now (token_key (rustTrim email)) = none := by
  have hcond : ¬(td.token ≠ rustTrim token ∨ td.expires_at ≤ now) := by
    rintro (h | h)
    · exact h ht
    · omega
  simp only [reset_password, hc, ne_eq, not_true_eq_false, if_false, hg,
    Bool.false_eq_true, hv, htd, hcond, hdbf, hu, hh, hup, hdu, hdt]
  refine ⟨trivial, trivial, ?_, ?_, ?_⟩
  · intro w hw hwid
    simp only [dbUpdatePassword, List.mem_map] at hw
    obtain ⟨x, hx, hxe⟩ := hw
    by_cases hid : x.id = u.id
    · simp only [hid, beq_self_eq_true, if_true] at hxe
      rw [← hxe]
    · simp only [beq_iff_eq, hid, if_false] at hxe
      rw [← hxe] at hwid
      exact absurd hwid hid
  · rw [storeGet_del_other _ _ _ _ (user_key_ne_token_key u.id (rustTrim email))]
    exact storeGet_del_self _ _ _
  · exact storeGet_del_self _ _ _

/-- C6, witness: the amended theorem at the concrete run of the
counterexample but on a schedule where both deletes succeed. -/
theorem reset_password_success_effects_witness :
    (reset_password cfg0 [⟨"u1", "a@b", .malformed "old"⟩]
        [⟨token_key "a@b", .token ⟨"T", 1000⟩, 2000⟩,
         ⟨user_key "u1", .user ⟨"u1", "a@b", .malformed "old"⟩, 2000⟩]
        ⟨false, false, false, false, false, false⟩ 500 0 "a@b" "T" "npw" "npw").resp
      = ⟨200, "Password reset successfully"⟩
    ∧ storeGet (reset_password cfg0 [⟨"u1", "a@b", .malformed "old"⟩]
        [⟨token_key "a@b", .token ⟨"T", 1000⟩, 2000⟩,
         ⟨user_key "u1", .user ⟨"u1", "a@b", .malformed "old"⟩, 2000⟩]
        ⟨false, false, false, false, false, false⟩ 500 0 "a@b" "T" "npw" "npw").store
        500 (user_key "u1") = none
    ∧ storeGet (reset_password cfg0 [⟨"u1", "a@b", .malformed "old"⟩]
        [⟨token_key "a@b", .token ⟨"T", 1000⟩, 2000⟩,
         ⟨user_key "u1", .user ⟨"u1", "a@b", .malformed "old"⟩, 2000⟩]
        ⟨false, false, false, false, false, false⟩ 500 0 "a@b" "T" "npw" "npw").store
        500 (token_key (rustTrim "a@b")) = none := by
  have h := reset_password_success_effects cfg0 [⟨"u1", "a@b", .malformed "old"⟩]
    [⟨token_key "a@b", .token ⟨"T", 1000⟩, 2000⟩,
     ⟨user_key "u1", .user ⟨"u1", "a@b", .malformed "old"⟩, 2000⟩]
    ⟨false, false, false, false, false, false⟩ 500 0 "a@b" "T" "npw" "npw"
    (.token ⟨"T", 1000⟩) ⟨"T", 1000⟩ ⟨"u1", "a@b", .malformed "old"⟩
    rfl rfl (by decide) rfl (by decide) (by decide) rfl (by decide) rfl rfl rfl rfl
  exact ⟨h.1, h.2.2.2.1, h.2.2.2.2⟩

/-! ## C7 — `get_user` cache-aside -/

/-- C7: `get_user` consults the cache first through a TTL-refreshing
`GETEX` with the 60-second `REDIS_EXPIRY`; on a hit that deserializes it
returns the cached user without touching the durable store (and the entry's
TTL is reset); a cached value that fails to deserialize is a miss, not an
error; on a miss — including a failing cache read — it falls through to the
durable store, whose answer it returns; on a durable hit it repopulates the
cache, and a failure of that best-effort write does not change the
answer. -/
theorem get_user_cache_aside (db : List UserRec) (store : RStore)
    (o : GetUserOracle) (now : Int) (uid : String) :
    REDIS_EXPIRY_SECONDS = 60
    ∧ (∀ v u, o.getExFails = false → storeGet store now (user_key uid) = some v →
        parseUserRec v = some u →
        (get_user db store o now uid).result = .ok (some u)
        ∧ (get_user db store o now uid).dbReads = 0
        ∧ (get_user db store o now uid).store
          = storeSetEx store now (user_key uid) v REDIS_EXPIRY_SECONDS)
    ∧ (∀ v, o.getExFails = false → storeGet store now (user_key uid) = some v →
        parseUserRec v = none → o.dbFails = false →
        (get_user db store o now uid).result = .ok (db.find? (fun x => x.id == uid))
        ∧ (get_user db store o now uid).dbReads = 1)
    ∧ ((o.getExFails = true ∨ storeGet store now (user_key uid) = none) →
        o.dbFails = false →
        (get_user db store o now uid).result = .ok (db.find? (fun x => x.id == uid))
        ∧ (get_user db store o now uid).dbReads = 1)
    ∧ (∀ u, (o.getExFails = true ∨ storeGet store now (user_key uid) = none) →
        o.dbFails = false → db.find? (fun x => x.id == uid) = some u →
        o.setFails = false →
        storeGet (get_user db store o now uid).store now (user_key uid)
          = some (.user u))
    ∧ (∀ u, (o.getExFails = true ∨ storeGet store now (user_key uid) = none) →
        o.dbFails = false → db.find? (fun x => x.id == uid) = some u →
        o.setFails = true →
        (get_user db store o now uid).result = .ok (some u)) := by
  refine ⟨rfl, ?_, ?_, ?_, ?_, ?_⟩
  · intro v u hg hv hp
    simp [get_user, storeGetEx, hg, hv, hp]
  · intro v hg hv hp hdb
    simp [get_user, storeGetEx, hg, hv, hp, hdb]
    rcases hfind : db.find? (fun x => x.id == uid) with _ | u <;> simp [hfind]
  · rintro (hg | hv) hdb
    · simp [get_user, hg, hdb]
      rcases hfind : db.find? (fun x => x.id == uid) with _ | u <;> simp [hfind]
    · by_cases hg : o.getExFails = true
      · simp [get_user, hg, hdb]
        rcases hfind : db.find? (fun x => x.id == uid) with _ | u <;> simp [hfind]
      · simp [get_user, storeGetEx, hg, hv, hdb]
        rcases hfind : db.find? (fun x => x.id == uid) with _ | u <;> simp [hfind]
  · intro u hmiss hdb hu hset
    rcases hmiss with hg | hv
    · simp [get_user, hg, hdb, hu, hset]
      exact storeGet_setEx_self _ _ _ _ _ (by decide)
    · by_cases hg : o.getExFails = true
      · simp [get_user, hg, hdb, hu, hset]
        exact storeGet_setEx_self _ _ _ _ _ (by decide)
      · simp [get_user, storeGetEx, hg, hv, hdb, hu, hset]
        exact storeGet_setEx_self _ _ _ _ _ (by decide)
  · intro u hmiss hdb hu hset
    rcases hmiss with hg | hv
    · simp [get_user, hg, hdb, hu, hset]
    · by_cases hg : o.getExFails = true
      · simp [get_user, hg, hdb, hu, hset]
      · simp [get_user, storeGetEx, hg, hv, hdb, hu, hset]

/-- C7, witness: a deserializable cache hit is returned without a durable
read; on an empty cache the durable store answers and the cache is
repopulated. -/
theorem get_user_cache_aside_witness :
    (get_user [] [⟨user_key "u1", .user ⟨"u1", "a@b", .malformed "h"⟩, 100⟩]
        ⟨false, false, false⟩ 0 "u1").result = .ok (some ⟨"u1", "a@b", .malformed "h"⟩)
    ∧ (get_user [] [⟨user_key "u1", .user ⟨"u1", "a@b", .malformed "h"⟩, 100⟩]
        ⟨false, false, false⟩ 0 "u1").dbReads = 0
    ∧ (get_user [⟨"u1", "a@b", .malformed "h"⟩] [] ⟨false, false, false⟩ 0 "u1").result
      = .ok (some ⟨"u1", "a@b", .malformed "h"⟩)
    ∧ storeGet (get_user [⟨"u1", "a@b", .malformed "h"⟩] [] ⟨false, false, false⟩
        0 "u1").store 0 (user_key "u1") = some (.user ⟨"u1", "a@b", .malformed "h"⟩) := by
  have h1 := (get_user_cache_aside []
    [⟨user_key "u1", .user ⟨"u1", "a@b", .malformed "h"⟩, 100⟩]
    ⟨false, false, false⟩ 0 "u1").2.1 (.user ⟨"u1", "a@b", .malformed "h"⟩)
    ⟨"u1", "a@b", .malformed "h"⟩ rfl (by decide) rfl
  have h2 := (get_user_cache_aside [⟨"u1", "a@b", .malformed "h"⟩] []
    ⟨false, false, false⟩ 0 "u1").2.2.2.1 (Or.inr rfl) rfl
  have h3 := (get_user_cache_aside [⟨"u1", "a@b", .malformed "h"⟩] []
    ⟨false, false, false⟩ 0 "u1").2.2.2.2.1 ⟨"u1", "a@b", .malformed "h"⟩
    (Or.inr rfl) rfl (by decide) rfl
  exact ⟨h1.1, h1.2.1, by rw [h2.1]; rfl, h3⟩
